import Mathlib

/-!
Shallow embedding of the chat backend (`backend/chat/`): the versioned
conversation store (`models.py`, `serializers.py`, `signals.py`), the summary
engine (`summary_service.py`), the retention cleanup (`tasks.py`,
`management/commands/cleanup_conversations.py`) and the deduplicating file
registry (`models.py` + `serializers.py`).

Modelling conventions:
- Database rows are records in lists inside a `DB` record; primary keys are
  `Nat` (the source uses UUIDs; only freshness and equality matter).
- Timestamps are abstract `Nat` ticks (`DB.now`); `auto_now` /
  `auto_now_add` fields are set from `DB.now` at write time.
- ORM attribute access is modelled as `models.py` defines it.  In
  particular `Message` has **no** `conversation` attribute and
  `Conversation` has **no** `messages` reverse relation (the
  `related_name="messages"` on `Message.version` hangs off `Version`;
  `Conversation`'s reverse relations are `versions` and `files`), so the
  accesses `instance.conversation` in `signals.py` and
  `conversation.messages` in `summary_service.py` raise `AttributeError`:
  the former propagates (`Err.attributeErr`), the latter is swallowed by
  the service's blanket `except`.  The explicit join
  `Message.objects.filter(version__conversation=c)` written out in
  `ConversationSummarySerializer.get_message_count` is modelled separately
  as `conversationMessages`.
- The opaque LLM call is a parameter `sz : SummaryRequest -> Option String`;
  `none` stands for any raised summarizer error (`openai.error.OpenAIError`
  or any other exception, which `summary_service.py` catches wholesale).
- Exceptions that abort a Django write surface as `Except Err`; since the
  source runs without transaction wrapping, every operation returns the
  state reached so far together with the outcome: `DB × Except Err α`.
-/

deriving instance DecidableEq for Except

namespace ChatStore

/-- Python `s[:n]`: the first `n` characters of a string. -/
def strTake (s : String) (n : Nat) : String :=
  String.mk (s.data.take n)

def isPyWhitespace (c : Char) : Bool :=
  c == ' ' || c == '\t' || c == '\n' || c == '\r' || c == '\x0b' || c == '\x0c'

/-- Python `str.strip()`: drop leading and trailing whitespace. -/
def strStrip (s : String) : String :=
  String.mk (((s.data.dropWhile isPyWhitespace).reverse.dropWhile isPyWhitespace).reverse)

/-- Error taxonomy of the specification (§7) plus the Python-level
`AttributeError` the source actually raises (`attributeErr`, not part of
the spec's taxonomy).  `invalidReference` is listed for completeness; the
embedding of the source never produces it. -/
inductive Err where
  | validationErr
  | notFound
  | invalidReference
  | duplicateContent
  | attributeErr
deriving Repr, DecidableEq

/-- `Conversation` row (`models.py`).  `isSummaryStale` carries the model
field default `False` from `models.py` line 37 when built by
`newConversation`. -/
structure Conversation where
  id : Nat
  title : String
  userId : Nat
  createdAt : Nat
  modifiedAt : Nat
  activeVersion : Option Nat
  deletedAt : Option Nat
  summary : Option String
  summaryGeneratedAt : Option Nat
  isSummaryStale : Bool
deriving Repr, DecidableEq

/-- `Version` row (`models.py`). -/
structure Version where
  id : Nat
  conversationId : Nat
  parentVersionId : Option Nat
  rootMessageId : Option Nat
deriving Repr, DecidableEq

/-- `Message` row (`models.py`); `role` is the `Role.name` slug the
serializers expose. -/
structure Message where
  id : Nat
  content : String
  role : String
  createdAt : Nat
  versionId : Nat
deriving Repr, DecidableEq

/-- `UploadedFile` row (`models.py`).  File bytes are kept inline so that
`calculate_file_hash` can be re-run on later saves. -/
structure UploadedFile where
  id : Nat
  userId : Nat
  conversationId : Option Nat
  hasFile : Bool
  content : List Nat
  filename : String
  fileSize : Nat
  fileType : String
  fileHash : String
  status : String
  isIndexed : Bool
deriving Repr, DecidableEq

/-- One entry of the TTL cache (`django.core.cache`): key, value, expiry. -/
structure CacheEntry where
  key : String
  value : String
  expiresAt : Nat
deriving Repr, DecidableEq

/-- The whole durable state plus the cache and an abstract clock.
`roles` is the `Role` table (`Role.name` values), which
`MessageSerializer`'s `SlugRelatedField(queryset=Role.objects.all())`
validates incoming role names against. -/
structure DB where
  conversations : List Conversation
  versions : List Version
  messages : List Message
  files : List UploadedFile
  cache : List CacheEntry
  roles : List String
  nextId : Nat
  now : Nat
deriving Repr, DecidableEq

def emptyDB : DB :=
  { conversations := [], versions := [], messages := [], files := []
  , cache := [], roles := ["user", "assistant"], nextId := 1, now := 0 }

def findConv (db : DB) (cid : Nat) : Option Conversation :=
  db.conversations.find? (fun c => c.id == cid)

def findVersion (db : DB) (vid : Nat) : Option Version :=
  db.versions.find? (fun v => v.id == vid)

def findMessage (db : DB) (mid : Nat) : Option Message :=
  db.messages.find? (fun m => m.id == mid)

/-- Rewrite the conversation row with id `cid` through `f`. -/
def mapConv (db : DB) (cid : Nat) (f : Conversation → Conversation) : DB :=
  { db with conversations := db.conversations.map (fun c => if c.id == cid then f c else c) }

/-- Rewrite the version row with id `vid` through `f`. -/
def mapVersion (db : DB) (vid : Nat) (f : Version → Version) : DB :=
  { db with versions := db.versions.map (fun v => if v.id == vid then f v else v) }

/-- Rewrite the message row with id `mid` through `f`. -/
def mapMessage (db : DB) (mid : Nat) (f : Message → Message) : DB :=
  { db with messages := db.messages.map (fun m => if m.id == mid then f m else m) }

/-- `Message.objects.filter(version__conversation=cid)` — the explicit join
written out in `ConversationSummarySerializer.get_message_count`
(`serializers.py` lines 173-177): the messages of all of a conversation's
versions.  This is what the rest of the codebase uses when it really wants
a conversation's messages; it is **not** what `conversation.messages`
evaluates to (no such attribute exists — see
`conversationMessagesLookup`). -/
def conversationMessages (db : DB) (cid : Nat) : List Message :=
  db.messages.filter (fun m =>
    match findVersion db m.versionId with
    | some v => v.conversationId == cid
    | none => false)

/-- Stable insertion into a list sorted by `createdAt` (ties keep insertion
order, matching `order_by('created_at')` with the secondary insertion
sequence). -/
def insertByTime (m : Message) : List Message → List Message
  | [] => [m]
  | x :: xs => if m.createdAt < x.createdAt then m :: x :: xs else x :: insertByTime m xs

/-- `order_by('created_at')`: stable sort by creation timestamp. -/
def sortByTime (l : List Message) : List Message :=
  l.foldl (fun acc m => insertByTime m acc) []

/-- The attribute lookup `conversation.messages` as `summary_service.py`
performs it.  `models.py` gives `Conversation` the reverse relations
`versions` (from `Version.conversation`) and `files` (from
`UploadedFile.conversation`) only; `related_name="messages"` on
`Message.version` attaches to `Version`, not `Conversation`.  The lookup
therefore finds no attribute and raises `AttributeError`; `none` models
the raise. -/
def conversationMessagesLookup (_db : DB) (_cid : Nat) : Option (List Message) :=
  none

/-! ## Summary engine (`summary_service.py`) -/

def MAX_TOKENS : Nat := 200
def SUMMARY_CACHE_TIMEOUT : Nat := 3600
def MIN_MESSAGES_FOR_SUMMARY : Nat := 3

def nl : String := "\n"

/-- One transcript line:
`f-string` label `'User' if msg.role.name == 'user' else 'Assistant'`
followed by `msg.content[:200]`. -/
def summaryLine (m : Message) : String :=
  (if m.role == "user" then "User: " else "Assistant: ") ++ strTake m.content 200

/-- `context`: the role-labeled transcript of the first ten messages
(`messages[:10]` after `order_by('created_at')`), joined by newlines. -/
def summaryContext (msgs : List Message) : String :=
  String.intercalate nl ((msgs.take 10).map summaryLine)

/-- What `generate_summary` submits to the opaque summarizer: fixed system
instruction, the transcript wrapped in the fixed user prompt, token budget
200 and temperature 0.3 (kept in tenths to stay in `Nat`). -/
structure SummaryRequest where
  system : String
  user : String
  maxTokens : Nat
  temperatureTenths : Nat
deriving Repr, DecidableEq

def summaryRequest (context : String) : SummaryRequest :=
  { system := "Provide a concise 2-3 sentence summary of the conversation."
  , user := "Conversation to summarize:" ++ nl ++ nl ++ context
  , maxTokens := MAX_TOKENS
  , temperatureTenths := 3 }

/-- `ConversationSummaryService.generate_summary`.  Its first statement
evaluates `conversation.messages.count()`; the attribute lookup raises
`AttributeError` inside the `try`, lands in the blanket
`except Exception` (lines 69-71) and the function returns `None` — on
every call, whatever the summarizer would do.  The threshold check,
transcript construction (`order_by('created_at')`, `messages[:10]`,
`content[:200]`, role labels) and summarizer call are kept below as the
unreachable branch they are in the source. -/
def generate_summary (db : DB) (cid : Nat) (sz : SummaryRequest → Option String) :
    Option String :=
  match conversationMessagesLookup db cid with
  | none => none
  | some allMsgs =>
    if allMsgs.length < MIN_MESSAGES_FOR_SUMMARY then none
    else
      let msgs := sortByTime allMsgs
      (sz (summaryRequest (summaryContext msgs))).map strStrip

def summaryCacheKey (cid : Nat) : String :=
  "conversation_summary_" ++ toString cid

/-- `cache.set(key, value, timeout)`. -/
def cacheSet (db : DB) (key value : String) (timeout : Nat) : DB :=
  { db with cache :=
      (db.cache.filter (fun e => e.key != key)) ++
        [{ key := key, value := value, expiresAt := db.now + timeout }] }

/-- `ConversationSummaryService.update_conversation_summary`: persists the
summary, the generation timestamp and the cleared staleness flag and writes
the cache entry only when `generate_summary` produced a truthy string;
returns the success boolean.  Failures change nothing (the `except` clause
returns `False`). -/
def update_conversation_summary (db : DB) (cid : Nat)
    (sz : SummaryRequest → Option String) : Bool × DB :=
  match generate_summary db cid sz with
  | none => (false, db)
  | some s =>
    if s == "" then (false, db)
    else
      let db1 := mapConv db cid (fun c =>
        { c with summary := some s, summaryGeneratedAt := some db.now
               , isSummaryStale := false })
      (true, cacheSet db1 (summaryCacheKey cid) s SUMMARY_CACHE_TIMEOUT)

/-- `ConversationSummaryService.mark_summary_stale`. -/
def mark_summary_stale (db : DB) (cid : Nat) : DB :=
  let db1 := mapConv db cid (fun c => { c with isSummaryStale := true })
  { db1 with cache := db1.cache.filter (fun e => e.key != summaryCacheKey cid) }

/-! ## Message writes (`models.py` `Message.save`, `signals.py`) -/

/-- `self.version.conversation.save()` — the first line of `Message.save`:
a full save of the owning conversation, whose `auto_now` field bumps
`modified_at` to the current clock. -/
def touchConversation (db : DB) (cid : Nat) : DB :=
  mapConv db cid (fun c => { c with modifiedAt := db.now })

/-- Insert a fresh message row (the `super().save(*args, **kwargs)` of a
newly created message). -/
def insertMessageRow (db : DB) (m : Message) : DB :=
  { db with messages := db.messages ++ [m] }

/-- Overwrite an existing message row (the `super().save()` of an update). -/
def writeMessageRow (db : DB) (m : Message) : DB :=
  mapMessage db m.id (fun _ => m)

/-- `Message.save`: touch the owning conversation first, then write the
message row itself.  `isNew` distinguishes INSERT from UPDATE. -/
def messageSave (db : DB) (convId : Nat) (m : Message) (isNew : Bool) : DB :=
  let db1 := touchConversation db convId
  if isNew then insertMessageRow db1 m else writeMessageRow db1 m

/-- `regenerate_summary_on_message_save` (`signals.py` lines 10-18): on a
newly created message the receiver evaluates `instance.conversation` in
`if created and instance.conversation:` — an attribute `Message` does not
have (`Message` carries `version`; the message's conversation is only
reachable as `instance.version.conversation`) — and raises
`AttributeError` **outside any try**.  Django's signal dispatch propagates
receiver exceptions out of `Model.save`, so every created-message save
raises; the threshold check (`conversation.messages.count()`, itself a
second nonexistent attribute) and the `update_conversation_summary` call
are unreachable.  When `created` is falsy the `and` short-circuits and the
receiver returns without touching anything. -/
def messagePostSaveSignal (db : DB) (created : Bool) : DB × Except Err Unit :=
  if created then (db, Except.error Err.attributeErr) else (db, Except.ok ())

/-- `Message.objects.create(version=..., content=..., role=...)`: build the
row with an `auto_now_add` timestamp, run `Message.save` (touch + insert —
both committed, the source runs in autocommit), tick the clock, then fire
the post-save signal with `created=True`.  The signal raises
`AttributeError`, so the create raises after the row is already persisted;
the summarizer (`sz`) is never reached on this path. -/
def messageCreate (db : DB) (vid : Nat) (role content : String)
    (_sz : SummaryRequest → Option String) : DB × Except Err Message :=
  match findVersion db vid with
  | none => (db, Except.error Err.notFound)
  | some v =>
    let m : Message :=
      { id := db.nextId, content := content, role := role
      , createdAt := db.now, versionId := vid }
    let db1 := messageSave db v.conversationId m true
    let db2 := { db1 with nextId := db1.nextId + 1, now := db1.now + 1 }
    let sig := messagePostSaveSignal db2 true
    (sig.1, sig.2.map (fun _ => m))

/-- AppendMessage: `MessageSerializer.create` behind the message-append
endpoint.  The `content` field is `blank=False`, so an empty content is a
`ValidationError` that aborts before any write; `role` is a
`SlugRelatedField(slug_field="name", queryset=Role.objects.all())`, so a
role name not in the `Role` table is likewise rejected before create. -/
def appendMessage (db : DB) (vid : Nat) (role content : String)
    (sz : SummaryRequest → Option String) : DB × Except Err Message :=
  if content == "" then (db, Except.error Err.validationErr)
  else if !(db.roles.contains role) then (db, Except.error Err.validationErr)
  else messageCreate db vid role content sz

/-! ## Upsert payloads (`serializers.py`)

Payload fields of kind `Option (Option Nat)` distinguish an absent key
(`none`, `validated_data.get` falls back to the instance value) from an
explicit null (`some none`): `should_serialize` treats both as "not
supplied", but an explicit null still overwrites the instance field. -/

structure MessagePayload where
  refId : Option Nat
  content : Option String
  role : Option String
deriving Repr, DecidableEq

structure VersionPayload where
  refId : Option Nat
  conversation : Option (Option Nat)
  parentVersion : Option (Option Nat)
  rootMessage : Option (Option Nat)
  messages : List MessagePayload
deriving Repr, DecidableEq

/-- `should_serialize(validated_data, field)`: true only when the key is
present with a non-`None` value. -/
def shouldSerialize (field : Option (Option Nat)) : Bool :=
  match field with
  | some (some _) => true
  | _ => false

/-- `validated_data.get(key, instanceValue)`. -/
def payloadGet (field : Option (Option Nat)) (instanceValue : Option Nat) : Option Nat :=
  match field with
  | none => instanceValue
  | some x => x

/-- The message-reconciliation loop of `VersionSerializer.update`:
update-if-id-present (a plain `Message.save`, `created=False`, so no
summary signal), else `Message.objects.create` (which does fire the
signal).  A missing id raises `DoesNotExist` and aborts the loop, keeping
the writes already made. -/
def reconcileMessages (db : DB) (vid convId : Nat)
    (sz : SummaryRequest → Option String) :
    List MessagePayload → DB × Except Err Unit
  | [] => (db, Except.ok ())
  | p :: ps =>
    match p.refId with
    | some mid =>
      match db.messages.find? (fun m => m.id == mid && m.versionId == vid) with
      | none => (db, Except.error Err.notFound)
      | some m =>
        let m1 := { m with content := p.content.getD m.content
                         , role := p.role.getD m.role }
        let db1 := messageSave db convId m1 false
        reconcileMessages db1 vid convId sz ps
    | none =>
      let res := messageCreate db vid (p.role.getD "user") (p.content.getD "") sz
      match res.2 with
      | Except.ok _ => reconcileMessages res.1 vid convId sz ps
      | Except.error e => (res.1, Except.error e)

/-- `VersionSerializer.update`: copy `conversation` / `parent_version` /
`root_message` from the payload with instance-value fallbacks, raise
`ValidationError` (before any write) when the payload supplies none of the
three, otherwise save the version row and reconcile the message list. -/
def versionUpdate (db : DB) (vid : Nat) (p : VersionPayload)
    (sz : SummaryRequest → Option String) : DB × Except Err Unit :=
  match findVersion db vid with
  | none => (db, Except.error Err.notFound)
  | some v =>
    let newConvId :=
      match p.conversation with
      | none => v.conversationId
      | some x => x.getD v.conversationId
    let v1 : Version :=
      { v with conversationId := newConvId
             , parentVersionId := payloadGet p.parentVersion v.parentVersionId
             , rootMessageId := payloadGet p.rootMessage v.rootMessageId }
    if !(shouldSerialize p.conversation || shouldSerialize p.parentVersion ||
         shouldSerialize p.rootMessage) then
      (db, Except.error Err.validationErr)
    else
      let db1 := mapVersion db vid (fun _ => v1)
      reconcileMessages db1 vid v1.conversationId sz p.messages

/-- The message-creation loop of `VersionSerializer.create`:
`Message.objects.create(version=version, **message_data)` for each payload
entry, each firing the message signals. -/
def createVersionMessages (db : DB) (vid : Nat)
    (sz : SummaryRequest → Option String) :
    List MessagePayload → DB × Except Err Unit
  | [] => (db, Except.ok ())
  | mp :: mps =>
    let res := messageCreate db vid (mp.role.getD "user") (mp.content.getD "") sz
    match res.2 with
    | Except.ok _ => createVersionMessages res.1 vid sz mps
    | Except.error e => (res.1, Except.error e)

/-- `VersionSerializer.create` invoked with `conversation` fixed: create the
version row, then create each message of the payload (each firing the
message signals). -/
def versionCreate (db : DB) (convId : Nat) (p : VersionPayload)
    (sz : SummaryRequest → Option String) : DB × Except Err Nat :=
  match findConv db convId with
  | none => (db, Except.error Err.notFound)
  | some _ =>
    let v : Version :=
      { id := db.nextId, conversationId := convId
      , parentVersionId := (payloadGet p.parentVersion none)
      , rootMessageId := (payloadGet p.rootMessage none) }
    let db1 := { db with versions := db.versions ++ [v], nextId := db.nextId + 1 }
    let res := createVersionMessages db1 v.id sz p.messages
    (res.1, res.2.map (fun _ => v.id))

/-! ## Conversation operations (`serializers.py`, `signals.py`) -/

/-- A `Conversation` row as `Conversation.objects.create` builds it: note
the model-level default `is_summary_stale=False` (`models.py` line 37). -/
def newConversation (id userId : Nat) (title : String) (now : Nat)
    (activeVersion : Option Nat) : Conversation :=
  { id := id, title := title, userId := userId, createdAt := now
  , modifiedAt := now, activeVersion := activeVersion, deletedAt := none
  , summary := none, summaryGeneratedAt := none, isSummaryStale := false }

/-- `handle_conversation_save` (`signals.py`): on creation, force
`is_summary_stale = True` on the fresh row. -/
def conversationPostSaveSignal (db : DB) (cid : Nat) (created : Bool) : DB :=
  if created then mapConv db cid (fun c => { c with isSummaryStale := true })
  else db

/-- The version-reconciliation loop shared by `ConversationSerializer`'s
`create` and `update`: payloads with an id update the version scoped to
this conversation (`Version.objects.get(id=..., conversation=instance)`),
payloads without create a fresh one; either way
`version_serializer.save(conversation=instance)` injects the owning
conversation into the payload. -/
def reconcileVersions (db : DB) (cid : Nat)
    (sz : SummaryRequest → Option String) :
    List VersionPayload → DB × Except Err Unit
  | [] => (db, Except.ok ())
  | p :: ps =>
    let p1 := { p with conversation := some (some cid) }
    match p.refId with
    | some vid =>
      match db.versions.find? (fun v => v.id == vid && v.conversationId == cid) with
      | none => (db, Except.error Err.notFound)
      | some _ =>
        let res := versionUpdate db vid p1 sz
        match res.2 with
        | Except.ok _ => reconcileVersions res.1 cid sz ps
        | Except.error e => (res.1, Except.error e)
    | none =>
      let res := versionCreate db cid p1 sz
      match res.2 with
      | Except.ok _ => reconcileVersions res.1 cid sz ps
      | Except.error e => (res.1, Except.error e)

/-- CreateConversation: `ConversationSerializer.create` plus the post-save
signal.  `active_version`, when supplied, must reference an existing
version (`PrimaryKeyRelatedField` validation) — with no check at all that
it belongs to the new conversation. -/
def createConversation (db : DB) (userId : Nat) (title : String)
    (activeP : Option Nat) (versionsP : List VersionPayload)
    (sz : SummaryRequest → Option String) : DB × Except Err Nat :=
  let ok : Bool :=
    match activeP with
    | none => true
    | some aid => (findVersion db aid).isSome
  if !ok then (db, Except.error Err.notFound)
  else
    let c := newConversation db.nextId userId title db.now activeP
    let db1 := { db with conversations := db.conversations ++ [c]
                       , nextId := db.nextId + 1, now := db.now + 1 }
    let db2 := conversationPostSaveSignal db1 c.id true
    let res := reconcileVersions db2 c.id sz versionsP
    (res.1, res.2.map (fun _ => c.id))

/-- `ConversationSerializer.update` — the store's SetActiveVersion /
conversation-update operation.  `active_version_id` falls back to the
instance's current pointer; when non-null the version is fetched **by id
only** (`Version.objects.get(id=active_version_id)`, no conversation
filter), then assigned.  A missing id raises `DoesNotExist` before the
conversation row is saved; afterwards the versions payload is reconciled. -/
def conversationUpdate (db : DB) (cid : Nat) (titleP : Option String)
    (activeP : Option (Option Nat)) (versionsP : List VersionPayload)
    (sz : SummaryRequest → Option String) : DB × Except Err Unit :=
  match findConv db cid with
  | none => (db, Except.error Err.notFound)
  | some c =>
    let newTitle := titleP.getD c.title
    let avid :=
      match activeP with
      | none => c.activeVersion
      | some x => x
    match avid with
    | some aid =>
      match findVersion db aid with
      | none => (db, Except.error Err.notFound)
      | some av =>
        let db1 := mapConv db cid (fun c0 =>
          { c0 with title := newTitle, activeVersion := some av.id
                  , modifiedAt := db.now })
        reconcileVersions db1 cid sz versionsP
    | none =>
      let db1 := mapConv db cid (fun c0 =>
        { c0 with title := newTitle, modifiedAt := db.now })
      reconcileVersions db1 cid sz versionsP

/-! ## Retention cleanup (`tasks.py`, `cleanup_conversations.py`)

`Conversation.objects.filter(created_at__lt=cutoff).delete()` runs Django's
deletion collector: deleting a conversation cascades to its versions
(`Version.conversation` is `CASCADE`) and their messages
(`Message.version` is `CASCADE`); deleting a version in turn cascades to
any conversation whose `active_version` points at it
(`Conversation.active_version` is `CASCADE`), so the doomed set is a
closure.  `parent_version`, `root_message` and `UploadedFile.conversation`
are `SET_NULL`.  The returned first tuple component is the **total** number
of objects deleted, cascades included. -/

def memById (dead : List Conversation) (cid : Nat) : Bool :=
  dead.any (fun d => d.id == cid)

/-- One round of the deletion collector: a conversation is doomed when it
already is, or when its `active_version` is a version owned by a doomed
conversation. -/
def deadStep (db : DB) (dead : List Conversation) : List Conversation :=
  db.conversations.filter (fun c =>
    memById dead c.id ||
      match c.activeVersion with
      | none => false
      | some aid =>
        db.versions.any (fun v => v.id == aid && memById dead v.conversationId))

/-- Fuel-bounded fixpoint of `deadStep` (the doomed set grows by at least
one conversation per productive round, so `#conversations + 1` rounds
suffice). -/
def deadClosure (db : DB) (dead : List Conversation) : Nat → List Conversation
  | 0 => dead
  | n + 1 =>
    let d := deadStep db dead
    if d.length == dead.length then dead else deadClosure db d n

/-- Does conversation `c` match the base queryset
`created_at__lt=cutoff` (optionally `user=ownerF`)? -/
def cleanupMatches (cutoff : Nat) (ownerF : Option Nat) (c : Conversation) : Bool :=
  c.createdAt < cutoff &&
    (match ownerF with
     | none => true
     | some u => c.userId == u)

/-- Versions cascaded by a doomed conversation set. -/
def cascadeVersions (db : DB) (dead : List Conversation) : List Version :=
  db.versions.filter (fun v => memById dead v.conversationId)

/-- Messages cascaded by a doomed conversation set (via their versions). -/
def cascadeMessages (db : DB) (dead : List Conversation) : List Message :=
  db.messages.filter (fun m =>
    ((cascadeVersions db dead).map (fun v => v.id)).contains m.versionId)

/-- DeleteConversationsOlderThan: hard delete of the matching conversations
with full cascade; returns the new state and the total number of rows
deleted (conversations + cascaded versions + cascaded messages, exactly
what `queryset.delete()[0]` reports). -/
def deleteConversationsOlderThan (db : DB) (cutoff : Nat) (ownerF : Option Nat) :
    DB × Nat :=
  let base := db.conversations.filter (cleanupMatches cutoff ownerF)
  let dead := deadClosure db base (db.conversations.length + 1)
  let deadVers := cascadeVersions db dead
  let deadVids := deadVers.map (fun v => v.id)
  let deadMsgs := cascadeMessages db dead
  let deadMids := deadMsgs.map (fun m => m.id)
  let db1 : DB :=
    { db with
      conversations := db.conversations.filter (fun c => !(memById dead c.id))
    , versions :=
        (db.versions.filter (fun v => !(memById dead v.conversationId))).map
          (fun v =>
            { v with
              parentVersionId :=
                match v.parentVersionId with
                | some p => if deadVids.contains p then none else some p
                | none => none
            , rootMessageId :=
                match v.rootMessageId with
                | some r => if deadMids.contains r then none else some r
                | none => none })
    , messages := db.messages.filter (fun m => !(deadVids.contains m.versionId))
    , files := db.files.map (fun f =>
        match f.conversationId with
        | some fc => if memById dead fc then { f with conversationId := none } else f
        | none => f) }
  (db1, dead.length + deadVers.length + deadMsgs.length)

/-- `cleanup_old_conversations` (`tasks.py`): cutoff is `now - days`, no
owner filter; returns the `deleted_count` it logs and reports. -/
def cleanup_old_conversations (db : DB) (days : Nat) : DB × Nat :=
  deleteConversationsOlderThan db (db.now - days) none

/-- The non-dry-run branch of the `cleanup_conversations` management
command after a `yes` confirmation: same queryset with the optional
owner filter, reporting `queryset.delete()[0]`. -/
def cleanupCommand (db : DB) (days : Nat) (ownerF : Option Nat) : DB × Nat :=
  deleteConversationsOlderThan db (db.now - days) ownerF

/-! ## Deduplicating file registry (`models.py`, `serializers.py`) -/

/-- `UploadedFile.save`: compute the hash only when a file is attached and
no hash is stored yet; later saves keep the stored hash untouched. -/
def uploadedFileSaveRow (hashFn : List Nat → String) (f : UploadedFile) :
    UploadedFile :=
  if f.hasFile && f.fileHash == "" then
    { f with fileHash := hashFn f.content }
  else f

/-- Re-save an already persisted `UploadedFile` row (any later `save()`). -/
def uploadedFileResave (hashFn : List Nat → String) (db : DB) (fid : Nat) : DB :=
  { db with files := db.files.map (fun f =>
      if f.id == fid then uploadedFileSaveRow hashFn f else f) }

/-- `file_type` extraction of `UploadedFileSerializer.create`:
`name.rsplit('.', 1)[1]` (the characters after the last dot) when the name
contains a dot, else `""`. -/
def fileTypeOf (name : String) : String :=
  if name.data.contains '.' then
    String.mk ((name.data.reverse.takeWhile (fun c => c != '.')).reverse)
  else ""

/-- Upload endpoint: `validate_file` computes the SHA-256 of the incoming
bytes and rejects the request with DuplicateContent when any stored row
has the same hash — before anything is persisted.  Otherwise `create`
fills the metadata and the model `save` stores the hash. -/
def uploadFile (hashFn : List Nat → String) (db : DB) (userId : Nat)
    (content : List Nat) (name : String) : DB × Except Err Nat :=
  let h := hashFn content
  if db.files.any (fun f => f.fileHash == h) then
    (db, Except.error Err.duplicateContent)
  else
    let f : UploadedFile :=
      { id := db.nextId, userId := userId, conversationId := none
      , hasFile := true, content := content, filename := name
      , fileSize := content.length, fileType := fileTypeOf name, fileHash := ""
      , status := "pending", isIndexed := false }
    let f1 := uploadedFileSaveRow hashFn f
    ({ db with files := db.files ++ [f1], nextId := db.nextId + 1 }, Except.ok f.id)

/-! ## Mutation sequences and invariants -/

/-- The mutation operations of the Version Tree Store (create/update of
conversations, versions and messages). -/
inductive Op where
  | createConv (userId : Nat) (title : String) (activeP : Option Nat)
      (versionsP : List VersionPayload)
  | updateConv (cid : Nat) (titleP : Option String)
      (activeP : Option (Option Nat)) (versionsP : List VersionPayload)
  | createVer (convId : Nat) (p : VersionPayload)
  | updateVer (vid : Nat) (p : VersionPayload)
  | append (vid : Nat) (role content : String)
deriving Repr

/-- Run one mutation; a raised error aborts the operation but keeps
whatever it already wrote (no transaction wrapping in the source). -/
def applyOp (sz : SummaryRequest → Option String) (db : DB) : Op → DB
  | Op.createConv u t a vs => (createConversation db u t a vs sz).1
  | Op.updateConv cid t a vs => (conversationUpdate db cid t a vs sz).1
  | Op.createVer cid p => (versionCreate db cid p sz).1
  | Op.updateVer vid p => (versionUpdate db vid p sz).1
  | Op.append vid r c => (appendMessage db vid r c sz).1

def applyOps (sz : SummaryRequest → Option String) (db : DB) (ops : List Op) : DB :=
  ops.foldl (applyOp sz) db

/-- Is some version row's id equal to `aid`? -/
def vidPresent (db : DB) (aid : Nat) : Bool :=
  db.versions.any (fun v => v.id == aid)

/-- The spec's active-version ownership invariant for one conversation:
`active_version`, if set, is a version of this very conversation. -/
def convActiveOwned (db : DB) (c : Conversation) : Bool :=
  match c.activeVersion with
  | none => true
  | some aid => db.versions.any (fun v => v.id == aid && v.conversationId == c.id)

/-- Ownership invariant over the whole store (spec §3 / §8). -/
def activeVersionOwnedInv (db : DB) : Bool :=
  db.conversations.all (convActiveOwned db)

/-- The weaker referential invariant the code does maintain:
`active_version`, if set, references an existing version row. -/
def convActiveExists (db : DB) (c : Conversation) : Bool :=
  match c.activeVersion with
  | none => true
  | some aid => vidPresent db aid

def activeVersionExistsInv (db : DB) : Bool :=
  db.conversations.all (convActiveExists db)

/-- Row-uniqueness facts the database schema guarantees (UUID primary
keys) together with the spec's ownership invariant; `deleteConversations
OlderThan` is characterised under these. -/
def WellFormed (db : DB) : Prop :=
  (db.conversations.map (fun c => c.id)).Nodup ∧
  (db.versions.map (fun v => v.id)).Nodup ∧
  activeVersionOwnedInv db = true

/-! ## Concrete fixtures used by witnesses and counterexamples -/

/-- A summarizer that always raises (`OpenAIError` or any other
exception): `generate_summary` maps every failure to `None`. -/
def failingSummarizer : SummaryRequest → Option String := fun _ => none

/-- A summarizer that returns text (with surrounding whitespace, so the
`strip()` in `generate_summary` is visible). -/
def goodSummarizer : SummaryRequest → Option String := fun _ => some " A short chat. "

def convA : Conversation :=
  { id := 1, title := "t", userId := 7, createdAt := 0, modifiedAt := 0,
    activeVersion := none, deletedAt := none, summary := none,
    summaryGeneratedAt := none, isSummaryStale := true }

def verA : Version :=
  { id := 2, conversationId := 1, parentVersionId := none, rootMessageId := none }

/-- One conversation, one version, three messages. -/
def dbA : DB :=
  { conversations := [convA]
  , versions := [verA]
  , messages := [ { id := 3, content := "hello", role := "user", createdAt := 1, versionId := 2 }
                , { id := 4, content := "hi there", role := "assistant", createdAt := 2, versionId := 2 }
                , { id := 5, content := "how are you", role := "user", createdAt := 3, versionId := 2 } ]
  , files := [], cache := [], roles := ["user", "assistant"], nextId := 6, now := 10 }

def convB : Conversation :=
  { id := 3, title := "u", userId := 7, createdAt := 0, modifiedAt := 0,
    activeVersion := none, deletedAt := none, summary := none,
    summaryGeneratedAt := none, isSummaryStale := true }

/-- Two conversations; version 2 belongs to conversation 1, not 3. -/
def dbTwo : DB :=
  { conversations := [convA, convB], versions := [verA], messages := []
  , files := [], cache := [], roles := ["user", "assistant"], nextId := 4, now := 5 }

/-! ## Helper lemmas -/

/-! ## C8 — UpdateConversationSummary failure is non-fatal and frameless -/

/-- C8: whenever `generate_summary` fails (summarizer error, too few
messages) or yields no usable summary (empty after strip),
`update_conversation_summary` returns `False` and leaves the state — in
particular `is_summary_stale` and the previously persisted `summary` —
completely unchanged. -/
theorem c8_update_summary_failure_changes_nothing (db : DB) (cid : Nat)
    (sz : SummaryRequest → Option String)
    (hfail : generate_summary db cid sz = none ∨ generate_summary db cid sz = some "") :
    update_conversation_summary db cid sz = (false, db) := by
  unfold update_conversation_summary
  rcases hfail with h | h <;> simp [h]

theorem c8_witness :
    (generate_summary dbA 1 failingSummarizer = none ∨
      generate_summary dbA 1 failingSummarizer = some "")
    ∧ update_conversation_summary dbA 1 failingSummarizer = (false, dbA) :=
  ⟨Or.inl rfl, c8_update_summary_failure_changes_nothing dbA 1 failingSummarizer (Or.inl rfl)⟩

/-! ## C4 — GenerateSummary never returns text (code bug) -/

/-- C4 (code bug): conversation 1 of `dbA` has three messages — the
explicit join the codebase itself uses (`conversationMessages`,
`Message.objects.filter(version__conversation=...)`) counts them — and
`goodSummarizer` returns text, yet `generate_summary` returns `None`: its
first statement reads `conversation.messages`, an attribute `Conversation`
does not have, and the `AttributeError` is swallowed by the blanket
`except Exception`.  It returns `None` on **every** input, so "with at
least 3 messages and a summarizer that returns text it returns non-empty
text" is false of the code (the < 3 half holds, vacuously). -/
theorem c4_generate_summary_never_returns_text :
    MIN_MESSAGES_FOR_SUMMARY ≤ (conversationMessages dbA 1).length
    ∧ goodSummarizer (summaryRequest "whatever the prompt") = some " A short chat. "
    ∧ generate_summary dbA 1 goodSummarizer = none
    ∧ (∀ (db : DB) (cid : Nat) (sz : SummaryRequest → Option String),
        generate_summary db cid sz = none) := by
  refine ⟨by decide, rfl, rfl, fun db cid sz => rfl⟩

/-! ## C1 — message append versus the summary signal (code bug) -/

/-- C1 (code bug): the spec's policy is that an append must succeed even if
summary generation fails, and `summary_service` does absorb its own
failures — but the wired receiver `regenerate_summary_on_message_save`
crashes before ever reaching it: `instance.conversation` does not exist on
`Message`, so every append of a new message raises `AttributeError` out of
`Model.save`, *after* the row was inserted (autocommit).  At the failing
input — appending "hi" (role `user`) to version 2 of `dbA` — the call
errors while the message table grows by one, and the raised error is the
signal's `AttributeError` for every state. -/
theorem c1_append_raises_attribute_error :
    (appendMessage dbA 2 "user" "hi" failingSummarizer).2 = Except.error Err.attributeErr
    ∧ (appendMessage dbA 2 "user" "hi" failingSummarizer).1.messages.length
        = dbA.messages.length + 1
    ∧ (∀ db : DB, (messagePostSaveSignal db true).2 = Except.error Err.attributeErr) := by
  refine ⟨by decide, by decide, fun db => rfl⟩

/-! ## C10 — every Message.save touches the conversation first -/

/-- C10: `Message.save` (for new messages and updates alike) is the row
write composed after the conversation touch; the touch bumps the owning
conversation's `modified_at` to the current clock while leaving the
message table untouched, so the bump happens even if the subsequent row
write never does; and the row write leaves the touched conversations
as they are. -/
theorem c10_message_save_touches_conversation_first (db : DB) (convId : Nat)
    (m : Message) (isNew : Bool) (c : Conversation)
    (hc : c ∈ db.conversations) (hid : c.id = convId) :
    messageSave db convId m isNew
      = (if isNew then insertMessageRow (touchConversation db convId) m
         else writeMessageRow (touchConversation db convId) m)
    ∧ (touchConversation db convId).messages = db.messages
    ∧ { c with modifiedAt := db.now } ∈ (touchConversation db convId).conversations
    ∧ (messageSave db convId m isNew).conversations
        = (touchConversation db convId).conversations := by
  refine ⟨rfl, rfl, ?_, ?_⟩
  · unfold touchConversation mapConv
    have he : ({ c with modifiedAt := db.now } : Conversation)
        = (fun x => if x.id == convId then { x with modifiedAt := db.now } else x) c := by
      simp [hid]
    rw [he]
    exact List.mem_map_of_mem _ hc
  · cases isNew <;> rfl

def msgW : Message :=
  { id := 99, content := "x", role := "user", createdAt := 0, versionId := 2 }

theorem c10_witness :
    convA ∈ dbA.conversations ∧ convA.id = 1
    ∧ (messageSave dbA 1 msgW true
        = (if true then insertMessageRow (touchConversation dbA 1) msgW
           else writeMessageRow (touchConversation dbA 1) msgW)
      ∧ (touchConversation dbA 1).messages = dbA.messages
      ∧ { convA with modifiedAt := dbA.now } ∈ (touchConversation dbA 1).conversations
      ∧ (messageSave dbA 1 msgW true).conversations
          = (touchConversation dbA 1).conversations) :=
  ⟨by decide, rfl,
    c10_message_save_touches_conversation_first dbA 1 msgW true convA (by decide) rfl⟩

/-! ## C9 — state of a freshly created conversation -/

/-- C9 counterexample: the claim's "the default is true" is false — the
model field default of `is_summary_stale` is `False` (`models.py` line 37);
only the post-create signal forces the flag to true. -/
theorem c9_counterexample :
    ¬ ((newConversation 1 7 "t" 0 none).isSummaryStale = true) := by decide

/-- C9 amended: immediately after `CreateConversation(owner, title)` the
conversation's `is_summary_stale` is true — but only because the creation
hook (`handle_conversation_save`) forces it; the model default is false —
and its `active_version` is unset. -/
theorem c9_amended_created_conversation_state (db : DB) (userId : Nat)
    (title : String) (sz : SummaryRequest → Option String) :
    ∃ dbq, createConversation db userId title none [] sz = (dbq, Except.ok db.nextId)
      ∧ ∃ c ∈ dbq.conversations, c.id = db.nextId ∧ c.isSummaryStale = true
          ∧ c.activeVersion = none := by
  refine ⟨mapConv
      { db with
        conversations :=
          db.conversations ++ [newConversation db.nextId userId title db.now none],
        nextId := db.nextId + 1,
        now := db.now + 1 }
      db.nextId (fun c => { c with isSummaryStale := true }), ?_, ?_⟩
  · rfl
  · refine ⟨{ newConversation db.nextId userId title db.now none with
              isSummaryStale := true }, ?_, rfl, rfl, rfl⟩
    unfold mapConv
    simp [newConversation]

/-! ## C3 — SetActiveVersion with a foreign version -/

/-- C3 counterexample: setting conversation 3's active version to version 2
— which belongs to conversation 1 — does **not** fail with
`InvalidReference`: the update succeeds and the prior active version
(`none`) is overwritten with the foreign version. -/
theorem c3_counterexample :
    (conversationUpdate dbTwo 3 none (some (some 2)) [] failingSummarizer).2 = Except.ok ()
    ∧ ((findConv (conversationUpdate dbTwo 3 none (some (some 2)) [] failingSummarizer).1 3).map
        Conversation.activeVersion) = some (some 2)
    ∧ (findVersion dbTwo 2).map Version.conversationId = some 1
    ∧ (findConv dbTwo 3).map Conversation.activeVersion = some none := by decide

/-- C3 amended: `SetActiveVersion(conversation, version)` succeeds for
*any* existing version id — `Version.objects.get(id=...)` is not scoped to
the conversation — and sets `active_version` to it; only a nonexistent id
fails (with `DoesNotExist`/NotFound, not `InvalidReference`), leaving the
state unchanged. -/
theorem c3_amended_set_active_version (db : DB) (cid : Nat) (c : Conversation)
    (sz : SummaryRequest → Option String) (hc : findConv db cid = some c) :
    (∀ aid v, findVersion db aid = some v →
      ∃ dbq, conversationUpdate db cid none (some (some aid)) [] sz = (dbq, Except.ok ())
        ∧ { c with activeVersion := some v.id, modifiedAt := db.now } ∈ dbq.conversations)
    ∧ (∀ aid, findVersion db aid = none →
        conversationUpdate db cid none (some (some aid)) [] sz
          = (db, Except.error Err.notFound)) := by
  have hcm : c ∈ db.conversations := List.mem_of_find?_eq_some hc
  have hcid : c.id = cid := by
    have := List.find?_some hc
    simpa using this
  constructor
  · intro aid v hv
    refine ⟨mapConv db cid (fun c0 =>
      { c0 with title := c.title, activeVersion := some v.id, modifiedAt := db.now }), ?_, ?_⟩
    · simp [conversationUpdate, hc, hv, reconcileVersions]
    · unfold mapConv
      have he : ({ c with activeVersion := some v.id, modifiedAt := db.now } : Conversation)
          = (fun c0 => if c0.id == cid then
              { c0 with title := c.title, activeVersion := some v.id, modifiedAt := db.now }
              else c0) c := by
        simp [hcid]
      rw [he]
      exact List.mem_map_of_mem _ hcm
  · intro aid hv
    simp [conversationUpdate, hc, hv]

theorem c3_amended_witness :
    findConv dbTwo 3 = some convB
    ∧ findVersion dbTwo 2 = some verA
    ∧ (∃ dbq, conversationUpdate dbTwo 3 none (some (some 2)) [] failingSummarizer
          = (dbq, Except.ok ())
        ∧ { convB with activeVersion := some verA.id, modifiedAt := dbTwo.now }
            ∈ dbq.conversations)
    ∧ findVersion dbTwo 99 = none
    ∧ conversationUpdate dbTwo 3 none (some (some 99)) [] failingSummarizer
        = (dbTwo, Except.error Err.notFound) :=
  ⟨rfl, rfl,
    (c3_amended_set_active_version dbTwo 3 convB failingSummarizer rfl).1 2 verA rfl,
    rfl,
    (c3_amended_set_active_version dbTwo 3 convB failingSummarizer rfl).2 99 rfl⟩

/-! ## C7 — upsert update with neither parent_version nor root_message -/

/-- C7 counterexample: a version-update payload that supplies **neither**
`parent_version` nor `root_message` — but does supply `conversation`, as
every payload coming through `ConversationSerializer`'s upsert loop does
(`version_serializer.save(conversation=instance)`) — does not raise
`ValidationError`: the update succeeds. -/
theorem c7_counterexample :
    (versionUpdate dbTwo 2
      { refId := some 2, conversation := some (some 1), parentVersion := none,
        rootMessage := none, messages := [] } failingSummarizer).2 = Except.ok () := by decide

theorem exceptMap_ne_validation {α β : Type} (f : α → β) (r : Except Err α)
    (h : r ≠ Except.error Err.validationErr) :
    Except.map f r ≠ Except.error Err.validationErr := by
  cases r with
  | ok a => simp [Except.map]
  | error e => simpa [Except.map] using h

theorem messageCreate_ne_validation (db : DB) (vid : Nat) (role content : String)
    (sz : SummaryRequest → Option String) :
    (messageCreate db vid role content sz).2 ≠ Except.error Err.validationErr := by
  unfold messageCreate
  split
  · simp
  · simp [messagePostSaveSignal, Except.map]

theorem reconcileMessages_ne_validation (vid convId : Nat)
    (sz : SummaryRequest → Option String) :
    ∀ (ps : List MessagePayload) (db : DB),
      (reconcileMessages db vid convId sz ps).2 ≠ Except.error Err.validationErr := by
  intro ps
  induction ps with
  | nil => intro db; simp [reconcileMessages]
  | cons p ps ih =>
    intro db
    rw [reconcileMessages]
    split
    · split
      · simp
      · exact ih _
    · try dsimp only
      split
      · exact ih _
      · rename_i e heq
        have h1 := messageCreate_ne_validation db vid (p.role.getD "user")
          (p.content.getD "") sz
        rw [heq] at h1
        simpa using h1

theorem createVersionMessages_ne_validation (vid : Nat)
    (sz : SummaryRequest → Option String) :
    ∀ (ps : List MessagePayload) (db : DB),
      (createVersionMessages db vid sz ps).2 ≠ Except.error Err.validationErr := by
  intro ps
  induction ps with
  | nil => intro db; simp [createVersionMessages]
  | cons mp mps ih =>
    intro db
    rw [createVersionMessages]
    try dsimp only
    split
    · exact ih _
    · rename_i e heq
      have h1 := messageCreate_ne_validation db vid (mp.role.getD "user")
        (mp.content.getD "") sz
      rw [heq] at h1
      simpa using h1

theorem versionUpdate_ne_validation (db : DB) (vid : Nat) (p : VersionPayload)
    (sz : SummaryRequest → Option String)
    (hsup : (shouldSerialize p.conversation || shouldSerialize p.parentVersion ||
      shouldSerialize p.rootMessage) = true) :
    (versionUpdate db vid p sz).2 ≠ Except.error Err.validationErr := by
  unfold versionUpdate
  split
  · simp
  · try dsimp only
    split
    · rename_i hcond
      rw [hsup] at hcond
      simp at hcond
    · exact reconcileMessages_ne_validation _ _ sz _ _

theorem versionCreate_ne_validation (db : DB) (cid : Nat) (p : VersionPayload)
    (sz : SummaryRequest → Option String) :
    (versionCreate db cid p sz).2 ≠ Except.error Err.validationErr := by
  unfold versionCreate
  split
  · simp
  · try dsimp only
    exact exceptMap_ne_validation _ _ (createVersionMessages_ne_validation _ sz _ _)

theorem reconcileVersions_ne_validation (cid : Nat)
    (sz : SummaryRequest → Option String) :
    ∀ (ps : List VersionPayload) (db : DB),
      (reconcileVersions db cid sz ps).2 ≠ Except.error Err.validationErr := by
  intro ps
  induction ps with
  | nil => intro db; simp [reconcileVersions]
  | cons p ps ih =>
    intro db
    rw [reconcileVersions]
    split
    · rename_i vid0 hrid
      split
      · simp
      · try dsimp only
        split
        · exact ih _
        · rename_i e heq
          have h1 := versionUpdate_ne_validation db vid0
            { p with conversation := some (some cid) } sz (by rfl)
          rw [heq] at h1
          simpa using h1
    · try dsimp only
      split
      · exact ih _
      · rename_i e heq
        have h1 := versionCreate_ne_validation db cid
          { p with conversation := some (some cid) } sz
        rw [heq] at h1
        simpa using h1

/-- C7 amended: `VersionSerializer.update` raises `ValidationError`
(persisting nothing) **exactly** when the payload supplies none of
`conversation`, `parent_version`, `root_message` (explicit nulls count as
not supplied): when none is supplied the update fails with
`ValidationError` and the state is untouched; when any of the three is
supplied the result is never a `ValidationError`; and on the
conversation-level upsert path — which always injects `conversation` via
`version_serializer.save(conversation=instance)` — the check never fires
at all. -/
theorem c7_amended_version_update_validation :
    (∀ (db : DB) (vid : Nat) (p : VersionPayload)
        (sz : SummaryRequest → Option String) (v : Version),
        findVersion db vid = some v →
        shouldSerialize p.conversation = false →
        shouldSerialize p.parentVersion = false →
        shouldSerialize p.rootMessage = false →
        versionUpdate db vid p sz = (db, Except.error Err.validationErr))
    ∧ (∀ (db : DB) (vid : Nat) (p : VersionPayload)
        (sz : SummaryRequest → Option String),
        (shouldSerialize p.conversation || shouldSerialize p.parentVersion ||
          shouldSerialize p.rootMessage) = true →
        (versionUpdate db vid p sz).2 ≠ Except.error Err.validationErr)
    ∧ (∀ (db : DB) (cid : Nat) (sz : SummaryRequest → Option String)
        (ps : List VersionPayload),
        (reconcileVersions db cid sz ps).2 ≠ Except.error Err.validationErr) := by
  refine ⟨?_, ?_, ?_⟩
  · intro db vid p sz v hv hcp hpp hrp
    simp [versionUpdate, hv, hcp, hpp, hrp]
  · intro db vid p sz hsup
    exact versionUpdate_ne_validation db vid p sz hsup
  · intro db cid sz ps
    exact reconcileVersions_ne_validation cid sz ps db

theorem c7_amended_witness :
    findVersion dbTwo 2 = some verA
    ∧ versionUpdate dbTwo 2
        { refId := some 2, conversation := none, parentVersion := none,
          rootMessage := none, messages := [] } failingSummarizer
        = (dbTwo, Except.error Err.validationErr)
    ∧ (shouldSerialize (some (some 1) : Option (Option Nat)) || shouldSerialize none ||
        shouldSerialize none) = true
    ∧ (versionUpdate dbTwo 2
        { refId := some 2, conversation := some (some 1), parentVersion := none,
          rootMessage := none, messages := [] } failingSummarizer).2
        ≠ Except.error Err.validationErr
    ∧ (reconcileVersions dbTwo 1 failingSummarizer
        [{ refId := some 2, conversation := none, parentVersion := none,
           rootMessage := none, messages := [] }]).2
        ≠ Except.error Err.validationErr :=
  ⟨rfl,
    c7_amended_version_update_validation.1 dbTwo 2
      { refId := some 2, conversation := none, parentVersion := none,
        rootMessage := none, messages := [] } failingSummarizer verA rfl rfl rfl rfl,
    rfl,
    c7_amended_version_update_validation.2.1 dbTwo 2
      { refId := some 2, conversation := some (some 1), parentVersion := none,
        rootMessage := none, messages := [] } failingSummarizer rfl,
    c7_amended_version_update_validation.2.2 dbTwo 1 failingSummarizer
      [{ refId := some 2, conversation := none, parentVersion := none,
         rootMessage := none, messages := [] }]⟩

/-! ## C6 — file upload deduplication by content hash -/

/-- C6: on a registry with no file of this content hash, the first upload
succeeds and its hash is stored and queryable; a second upload of
byte-identical content is rejected with DuplicateContent before anything
is persisted (the state is exactly the post-first-upload state); and a
stored row with a hash is never re-hashed by later saves, whatever hash
function a later save would use. -/
theorem c6_duplicate_content_rejected (hashFn : List Nat → String) (db : DB)
    (u1 u2 : Nat) (content : List Nat) (name1 name2 : String)
    (hfresh : db.files.any (fun f => f.fileHash == hashFn content) = false)
    (hne : hashFn content ≠ "") :
    ∃ db1 fid, uploadFile hashFn db u1 content name1 = (db1, Except.ok fid)
      ∧ db1.files.any (fun f => f.fileHash == hashFn content) = true
      ∧ (∃ f ∈ db1.files, f.id = fid ∧ f.fileHash = hashFn content ∧ f.fileHash ≠ "")
      ∧ uploadFile hashFn db1 u2 content name2 = (db1, Except.error Err.duplicateContent)
      ∧ (∀ hashFn2 f, f.fileHash ≠ "" → uploadedFileSaveRow hashFn2 f = f) := by
  unfold uploadFile
  rw [if_neg (by simp [hfresh])]
  refine ⟨_, _, rfl, ?_, ?_, ?_, ?_⟩
  · simp [uploadedFileSaveRow]
  · refine ⟨_, List.mem_append_right _ (List.mem_singleton.2 rfl), ?_, ?_, ?_⟩
    · simp [uploadedFileSaveRow]
    · simp [uploadedFileSaveRow]
    · simp only [uploadedFileSaveRow]
      simpa using hne
  · rw [if_pos (by simp [uploadedFileSaveRow])]
  · intro hashFn2 f hf
    unfold uploadedFileSaveRow
    rw [if_neg]
    simp [hf]

def lenHash : List Nat → String := fun l => String.mk (List.replicate (l.length + 1) 'h')

theorem c6_witness :
    emptyDB.files.any (fun f => f.fileHash == lenHash [1, 2]) = false
    ∧ lenHash [1, 2] ≠ ""
    ∧ (∃ db1 fid, uploadFile lenHash emptyDB 7 [1, 2] "a.txt" = (db1, Except.ok fid)
        ∧ db1.files.any (fun f => f.fileHash == lenHash [1, 2]) = true
        ∧ (∃ f ∈ db1.files, f.id = fid ∧ f.fileHash = lenHash [1, 2] ∧ f.fileHash ≠ "")
        ∧ uploadFile lenHash db1 8 [1, 2] "b.txt" = (db1, Except.error Err.duplicateContent)
        ∧ (∀ hashFn2 f, f.fileHash ≠ "" → uploadedFileSaveRow hashFn2 f = f)) :=
  ⟨rfl, by decide,
    c6_duplicate_content_rejected lenHash emptyDB 7 8 [1, 2] "a.txt" "b.txt" rfl (by decide)⟩

/-! ## C5 — retention cleanup: who is deleted and what count is returned -/

theorem memById_filter (db : DB) (p : Conversation → Bool)
    (hnd : (db.conversations.map (fun c => c.id)).Nodup)
    (c : Conversation) (hc : c ∈ db.conversations) :
    memById (db.conversations.filter p) c.id = p c := by
  unfold memById
  cases hp : p c with
  | true =>
    exact List.any_eq_true.2 ⟨c, List.mem_filter.2 ⟨hc, hp⟩, by simp⟩
  | false =>
    refine List.any_eq_false.2 ?_
    intro d hd hbeq
    rcases List.mem_filter.1 hd with ⟨hd1, hd2⟩
    have hde : d = c :=
      List.inj_on_of_nodup_map hnd hd1 hc (by simpa using hbeq)
    rw [hde] at hd2
    exact absurd hd2 (by simp [hp])

theorem deadStep_fix (db : DB) (p : Conversation → Bool)
    (hnd : (db.conversations.map (fun c => c.id)).Nodup)
    (hvnd : (db.versions.map (fun v => v.id)).Nodup)
    (hown : activeVersionOwnedInv db = true) :
    deadStep db (db.conversations.filter p) = db.conversations.filter p := by
  unfold deadStep
  apply List.filter_congr
  intro c hc
  rw [memById_filter db p hnd c hc]
  cases hp : p c with
  | true => simp
  | false =>
    simp only [Bool.false_or]
    cases hca : c.activeVersion with
    | none => rfl
    | some aid =>
      refine List.any_eq_false.2 ?_
      intro v hv hcond
      rw [Bool.and_eq_true] at hcond
      obtain ⟨hvid, hmem⟩ := hcond
      have hallc := List.all_eq_true.1 hown c hc
      unfold convActiveOwned at hallc
      rw [hca] at hallc
      rcases List.any_eq_true.1 hallc with ⟨v2, hv2, hv2c⟩
      rw [Bool.and_eq_true] at hv2c
      obtain ⟨hv2id, hv2conv⟩ := hv2c
      have hvv : v = v2 :=
        List.inj_on_of_nodup_map hvnd hv hv2 (by
          have h1 : v.id = aid := by simpa using hvid
          have h2 : v2.id = aid := by simpa using hv2id
          rw [h1, h2])
      have hvc : v.conversationId = c.id := by
        rw [hvv]
        simpa using hv2conv
      rw [hvc, memById_filter db p hnd c hc, hp] at hmem
      exact Bool.false_ne_true hmem

theorem deadClosure_of_fix (db : DB) (dead : List Conversation) (n : Nat)
    (h : deadStep db dead = dead) : deadClosure db dead (n + 1) = dead := by
  unfold deadClosure
  rw [h]
  simp

/-- C5 amended: `DeleteConversationsOlderThan` hard-deletes exactly the
conversations whose `created_at` is before the cutoff (optionally
restricted to one owner), cascading away exactly those conversations'
versions and those versions' messages — on a well-formed store, where
every `active_version` is owned by its conversation, so the
`active_version` CASCADE adds nothing — but the value it returns is
`queryset.delete()[0]`: the **total** number of rows deleted,
conversations plus cascaded versions plus cascaded messages, which equals
the number of conversations deleted only when those conversations have no
versions or messages.  (Surviving versions are compared by their
`(id, conversation)` pairs because dangling `parent_version` /
`root_message` references are nulled, not cascaded.) -/
theorem c5_amended_cleanup_deletes_and_counts (db : DB) (cutoff : Nat)
    (ownerF : Option Nat) (hwf : WellFormed db) :
    (deleteConversationsOlderThan db cutoff ownerF).1.conversations
      = db.conversations.filter (fun c => !(cleanupMatches cutoff ownerF c))
    ∧ (deleteConversationsOlderThan db cutoff ownerF).2
      = (db.conversations.filter (cleanupMatches cutoff ownerF)).length
        + (cascadeVersions db (db.conversations.filter (cleanupMatches cutoff ownerF))).length
        + (cascadeMessages db (db.conversations.filter (cleanupMatches cutoff ownerF))).length
    ∧ (deleteConversationsOlderThan db cutoff ownerF).1.versions.map
        (fun v => (v.id, v.conversationId))
      = (db.versions.filter (fun v =>
          !(memById (db.conversations.filter (cleanupMatches cutoff ownerF))
            v.conversationId))).map (fun v => (v.id, v.conversationId))
    ∧ (deleteConversationsOlderThan db cutoff ownerF).1.messages
      = db.messages.filter (fun m =>
          !(((cascadeVersions db (db.conversations.filter (cleanupMatches cutoff ownerF))).map
            (fun v => v.id)).contains m.versionId)) := by
  obtain ⟨hnd, hvnd, hown⟩ := hwf
  have hfix := deadStep_fix db (cleanupMatches cutoff ownerF) hnd hvnd hown
  have hclo : deadClosure db (db.conversations.filter (cleanupMatches cutoff ownerF))
      (db.conversations.length + 1)
      = db.conversations.filter (cleanupMatches cutoff ownerF) :=
    deadClosure_of_fix _ _ _ hfix
  simp only [deleteConversationsOlderThan]
  rw [hclo]
  refine ⟨?_, rfl, ?_, rfl⟩
  · apply List.filter_congr
    intro c hc
    rw [memById_filter db _ hnd c hc]
  · rw [List.map_map]
    apply List.map_congr_left
    intro v hv
    rfl

def dbC : DB :=
  { conversations :=
      [ { id := 1, title := "ten days old", userId := 7, createdAt := 90, modifiedAt := 90,
          activeVersion := none, deletedAt := none, summary := none,
          summaryGeneratedAt := none, isSummaryStale := true }
      , { id := 2, title := "thirty-one days old", userId := 7, createdAt := 69, modifiedAt := 69,
          activeVersion := none, deletedAt := none, summary := none,
          summaryGeneratedAt := none, isSummaryStale := true }
      , { id := 3, title := "sixty days old", userId := 7, createdAt := 40, modifiedAt := 40,
          activeVersion := none, deletedAt := none, summary := none,
          summaryGeneratedAt := none, isSummaryStale := true } ]
  , versions := [], messages := [], files := [], cache := []
  , roles := ["user", "assistant"], nextId := 4, now := 100 }

theorem c5_witness :
    WellFormed dbC
    ∧ ((deleteConversationsOlderThan dbC 70 none).1.conversations
          = dbC.conversations.filter (fun c => !(cleanupMatches 70 none c))
      ∧ (deleteConversationsOlderThan dbC 70 none).2
          = (dbC.conversations.filter (cleanupMatches 70 none)).length
            + (cascadeVersions dbC (dbC.conversations.filter (cleanupMatches 70 none))).length
            + (cascadeMessages dbC (dbC.conversations.filter (cleanupMatches 70 none))).length
      ∧ (deleteConversationsOlderThan dbC 70 none).1.versions.map
            (fun v => (v.id, v.conversationId))
          = (dbC.versions.filter (fun v =>
              !(memById (dbC.conversations.filter (cleanupMatches 70 none))
                v.conversationId))).map (fun v => (v.id, v.conversationId))
      ∧ (deleteConversationsOlderThan dbC 70 none).1.messages
          = dbC.messages.filter (fun m =>
              !(((cascadeVersions dbC (dbC.conversations.filter (cleanupMatches 70 none))).map
                (fun v => v.id)).contains m.versionId)))
    ∧ (deleteConversationsOlderThan dbC 70 none).2 = 2
    ∧ (deleteConversationsOlderThan dbC 70 none).1.conversations.map (fun c => c.id) = [1] :=
  ⟨⟨by decide, by decide, by decide⟩,
    c5_amended_cleanup_deletes_and_counts dbC 70 none ⟨by decide, by decide, by decide⟩,
    by decide, by decide⟩

/-- One conversation 60 days old carrying one (empty) version. -/
def dbD : DB :=
  { conversations := [{ id := 1, title := "old", userId := 7, createdAt := 40, modifiedAt := 40,
                        activeVersion := none, deletedAt := none, summary := none,
                        summaryGeneratedAt := none, isSummaryStale := true }]
  , versions := [{ id := 2, conversationId := 1, parentVersionId := none, rootMessageId := none }]
  , messages := [], files := [], cache := []
  , roles := ["user", "assistant"], nextId := 3, now := 100 }

/-- C5 counterexample: `cleanup_old_conversations(days=30)` on a store with
one 60-day-old conversation owning one version deletes 1 conversation but
returns 2 (`queryset.delete()[0]` counts cascaded rows), so the returned
value is **not** "the count of conversations deleted". -/
theorem c5_counterexample :
    (cleanup_old_conversations dbD 30).2 = 2
    ∧ dbD.conversations.length - (cleanup_old_conversations dbD 30).1.conversations.length = 1
    ∧ ¬ ((cleanup_old_conversations dbD 30).2
          = dbD.conversations.length
            - (cleanup_old_conversations dbD 30).1.conversations.length) := by
  refine ⟨by decide, by decide, by decide⟩

/-! ## C2 — active-version invariant over mutation sequences -/

/-- Some version row has id `aid`. -/
def VidPresentP (db : DB) (aid : Nat) : Prop := ∃ v ∈ db.versions, v.id = aid

/-- Propositional form of `activeVersionExistsInv`. -/
def InvP (db : DB) : Prop :=
  ∀ c ∈ db.conversations, ∀ aid, c.activeVersion = some aid → VidPresentP db aid

theorem invP_iff (db : DB) : activeVersionExistsInv db = true ↔ InvP db := by
  unfold activeVersionExistsInv InvP convActiveExists vidPresent VidPresentP
  rw [List.all_eq_true]
  constructor
  · intro h c hc aid ha
    have hx := h c hc
    rw [ha] at hx
    rcases List.any_eq_true.1 hx with ⟨v, hv, he⟩
    exact ⟨v, hv, by simpa using he⟩
  · intro h c hc
    cases hca : c.activeVersion with
    | none => rfl
    | some aid =>
      rcases h c hc aid hca with ⟨v, hv, hid⟩
      exact List.any_eq_true.2 ⟨v, hv, by simp [hid]⟩

theorem invP_build {db dbq : DB} (hv : dbq.versions = db.versions)
    (hc : ∀ c ∈ dbq.conversations, ∀ aid, c.activeVersion = some aid → VidPresentP db aid) :
    InvP dbq := by
  intro c hcm aid ha
  have hp := hc c hcm aid ha
  unfold VidPresentP at hp ⊢
  rw [hv]
  exact hp

theorem invP_keepConvs {db dbq : DB} (hc : dbq.conversations = db.conversations)
    (hmono : ∀ aid, VidPresentP db aid → VidPresentP dbq aid) (h : InvP db) : InvP dbq := by
  intro c hcm aid ha
  rw [hc] at hcm
  exact hmono aid (h c hcm aid ha)

theorem vidPresentP_of_find {db : DB} {aid : Nat} {v : Version}
    (h : findVersion db aid = some v) : VidPresentP db aid := by
  refine ⟨v, List.mem_of_find?_eq_some h, ?_⟩
  have hp := List.find?_some h
  simpa using hp

theorem invP_mapConv_set {db : DB} {cid : Nat} {f : Conversation → Conversation}
    (hf : ∀ c, (f c).activeVersion = c.activeVersion ∨
      ∃ aid, (f c).activeVersion = some aid ∧ VidPresentP db aid)
    (h : InvP db) : InvP (mapConv db cid f) := by
  apply invP_build rfl
  intro c hcm aid ha
  rcases List.mem_map.1 hcm with ⟨x, hx, rfl⟩
  split at ha
  · rcases hf x with hp | ⟨aid2, he, hpr⟩
    · rw [hp] at ha
      exact h x hx aid ha
    · rw [he] at ha
      cases ha
      exact hpr
  · exact h x hx aid ha

theorem invP_touch (db : DB) (cid : Nat) (h : InvP db) :
    InvP (touchConversation db cid) :=
  invP_mapConv_set (fun _ => Or.inl rfl) h

theorem invP_messageSave (db : DB) (convId : Nat) (m : Message) (isNew : Bool)
    (h : InvP db) : InvP (messageSave db convId m isNew) := by
  unfold messageSave
  split
  · exact invP_touch db convId h
  · exact invP_touch db convId h

theorem invP_messageCreate (db : DB) (vid : Nat) (role content : String)
    (sz : SummaryRequest → Option String) (h : InvP db) :
    InvP (messageCreate db vid role content sz).1 := by
  unfold messageCreate
  split
  · exact h
  · rename_i v hv
    exact invP_messageSave db v.conversationId
      { id := db.nextId, content := content, role := role
      , createdAt := db.now, versionId := vid } true h

theorem invP_appendMessage (db : DB) (vid : Nat) (role content : String)
    (sz : SummaryRequest → Option String) (h : InvP db) :
    InvP (appendMessage db vid role content sz).1 := by
  unfold appendMessage
  split
  · exact h
  · split
    · exact h
    · exact invP_messageCreate db vid role content sz h

theorem invP_reconcileMessages (vid convId : Nat) (sz : SummaryRequest → Option String) :
    ∀ (ps : List MessagePayload) (db : DB), InvP db →
      InvP (reconcileMessages db vid convId sz ps).1 := by
  intro ps
  induction ps with
  | nil => intro db h; exact h
  | cons p ps ih =>
    intro db h
    rw [reconcileMessages]
    split
    · split
      · exact h
      · exact ih _ (invP_messageSave db convId _ false h)
    · dsimp only
      split
      · exact ih _ (invP_messageCreate db vid _ _ sz h)
      · exact invP_messageCreate db vid _ _ sz h

theorem invP_mapVersion_keepId {db : DB} {vid : Nat} {f : Version → Version}
    (hf : ∀ v0, (v0.id == vid) = true → (f v0).id = v0.id) (h : InvP db) :
    InvP (mapVersion db vid f) := by
  refine invP_keepConvs ?_ ?_ h
  · rfl
  intro aid hp
  rcases hp with ⟨w, hw, hwid⟩
  refine ⟨(fun v0 => if v0.id == vid then f v0 else v0) w, List.mem_map_of_mem _ hw, ?_⟩
  by_cases hwv : (w.id == vid) = true
  · simp only [hwv, if_true]
    rw [hf w hwv, hwid]
  · simp only [hwv, if_false]
    exact hwid

theorem invP_versionUpdate (db : DB) (vid : Nat) (p : VersionPayload)
    (sz : SummaryRequest → Option String) (h : InvP db) :
    InvP (versionUpdate db vid p sz).1 := by
  unfold versionUpdate
  split
  · exact h
  · rename_i v heq
    dsimp only
    split
    · exact h
    · apply invP_reconcileMessages
      refine invP_mapVersion_keepId ?_ h
      intro v0 hv0
      have h1 : v0.id = vid := by simpa using hv0
      have h2 : v.id = vid := by simpa using List.find?_some heq
      simp [h1, h2]

theorem invP_createVersionMessages (vid : Nat) (sz : SummaryRequest → Option String) :
    ∀ (ps : List MessagePayload) (db : DB), InvP db →
      InvP (createVersionMessages db vid sz ps).1 := by
  intro ps
  induction ps with
  | nil => intro db h; exact h
  | cons mp mps ih =>
    intro db h
    rw [createVersionMessages]
    try dsimp only
    split
    · exact ih _ (invP_messageCreate db vid _ _ sz h)
    · exact invP_messageCreate db vid _ _ sz h

theorem invP_versionCreate (db : DB) (convId : Nat) (p : VersionPayload)
    (sz : SummaryRequest → Option String) (h : InvP db) :
    InvP (versionCreate db convId p sz).1 := by
  unfold versionCreate
  split
  · exact h
  · dsimp only
    apply invP_createVersionMessages
    refine invP_keepConvs ?_ ?_ h
    · rfl
    intro aid hp
    rcases hp with ⟨w, hw, hwid⟩
    exact ⟨w, List.mem_append_left _ hw, hwid⟩

theorem invP_reconcileVersions (cid : Nat) (sz : SummaryRequest → Option String) :
    ∀ (ps : List VersionPayload) (db : DB), InvP db →
      InvP (reconcileVersions db cid sz ps).1 := by
  intro ps
  induction ps with
  | nil => intro db h; exact h
  | cons p ps ih =>
    intro db h
    rw [reconcileVersions]
    try dsimp only
    split
    · split
      · exact h
      · try dsimp only
        split
        · exact ih _ (invP_versionUpdate db _ _ sz h)
        · exact invP_versionUpdate db _ _ sz h
    · try dsimp only
      split
      · exact ih _ (invP_versionCreate db cid _ sz h)
      · exact invP_versionCreate db cid _ sz h

theorem invP_convSignal (db : DB) (cid : Nat) (created : Bool) (h : InvP db) :
    InvP (conversationPostSaveSignal db cid created) := by
  unfold conversationPostSaveSignal
  split
  · exact invP_mapConv_set (fun _ => Or.inl rfl) h
  · exact h

theorem invP_createConversation (db : DB) (userId : Nat) (title : String)
    (activeP : Option Nat) (versionsP : List VersionPayload)
    (sz : SummaryRequest → Option String) (h : InvP db) :
    InvP (createConversation db userId title activeP versionsP sz).1 := by
  unfold createConversation
  split
  · try dsimp only
    apply invP_reconcileVersions
    apply invP_convSignal
    refine invP_build rfl ?_
    intro c hcm aid ha
    rcases List.mem_append.1 hcm with hold | hnew
    · exact h c hold aid ha
    · rw [List.mem_singleton.1 hnew] at ha
      simp [newConversation] at ha
  · rename_i aid2
    try dsimp only
    split
    · exact h
    · rename_i hcond
      try dsimp only
      apply invP_reconcileVersions
      apply invP_convSignal
      refine invP_build rfl ?_
      intro c hcm aid ha
      rcases List.mem_append.1 hcm with hold | hnew
      · exact h c hold aid ha
      · rw [List.mem_singleton.1 hnew] at ha
        have haa : aid2 = aid := by simpa [newConversation] using ha
        have hsome : (findVersion db aid2).isSome = true := by
          by_contra hn
          exact hcond (by simp [hn])
        rcases Option.isSome_iff_exists.1 hsome with ⟨v, hv⟩
        rw [haa] at hv
        exact vidPresentP_of_find hv

theorem invP_conversationUpdate (db : DB) (cid : Nat) (titleP : Option String)
    (activeP : Option (Option Nat)) (versionsP : List VersionPayload)
    (sz : SummaryRequest → Option String) (h : InvP db) :
    InvP (conversationUpdate db cid titleP activeP versionsP sz).1 := by
  unfold conversationUpdate
  split
  · exact h
  · dsimp only
    split
    · rename_i aid hfv2
      split
      · exact h
      · rename_i av hfv
        apply invP_reconcileVersions
        refine invP_mapConv_set ?_ h
        intro c0
        exact Or.inr ⟨av.id, rfl, av, List.mem_of_find?_eq_some hfv, rfl⟩
    · apply invP_reconcileVersions
      exact invP_mapConv_set (fun _ => Or.inl rfl) h

theorem invP_applyOp (sz : SummaryRequest → Option String) (db : DB) (op : Op)
    (h : InvP db) : InvP (applyOp sz db op) := by
  cases op with
  | createConv u t a vs => exact invP_createConversation db u t a vs sz h
  | updateConv cid t a vs => exact invP_conversationUpdate db cid t a vs sz h
  | createVer cid p => exact invP_versionCreate db cid p sz h
  | updateVer vid p => exact invP_versionUpdate db vid p sz h
  | append vid r c => exact invP_appendMessage db vid r c sz h

/-- C2 amended: over every sequence of create/update mutations of
conversations, versions and messages, every conversation's
`active_version`, if set, references an **existing** version row — but not
necessarily one belonging to that conversation (see the counterexample):
the code validates only existence, never ownership. -/
theorem c2_amended_active_version_exists (sz : SummaryRequest → Option String)
    (db : DB) (ops : List Op) (h : activeVersionExistsInv db = true) :
    activeVersionExistsInv (applyOps sz db ops) = true := by
  rw [invP_iff] at h ⊢
  unfold applyOps
  induction ops generalizing db with
  | nil => exact h
  | cons op ops ih => exact ih _ (invP_applyOp sz db op h)

def opC2a : Op := Op.createConv 7 "a" none
  [{ refId := none, conversation := none, parentVersion := none,
     rootMessage := none, messages := [] }]
def opC2b : Op := Op.createConv 7 "b" none []
def opC2c : Op := Op.updateConv 3 none (some (some 2)) []

/-- C2 counterexample: from an empty store, create conversation 1 with
version 2, create conversation 3, then set conversation 3's
`active_version` to version 2.  Every step succeeds, and afterwards
conversation 3's active version belongs to conversation 1 — the claimed
ownership invariant is violated by this mutation sequence. -/
theorem c2_counterexample :
    activeVersionOwnedInv (applyOps failingSummarizer emptyDB [opC2a, opC2b, opC2c]) = false := by
  decide

theorem c2_amended_witness :
    activeVersionExistsInv emptyDB = true
    ∧ activeVersionExistsInv (applyOps failingSummarizer emptyDB [opC2a, opC2b, opC2c]) = true :=
  ⟨rfl, c2_amended_active_version_exists failingSummarizer emptyDB [opC2a, opC2b, opC2c] rfl⟩

end ChatStore
